import Mathlib

set_option maxRecDepth 2000

/-!
Verification of the qared-ultimate trade-bot signal pipeline.

Shallow embedding of the per-symbol signal evaluation pipeline and its
two-phase confirmation state machine from
`src/V.0.0.1/netlify/functions/trade-bot.js` (the primary variant) and
`src/unnamed/part_002` (a provider variant of the same logic).

Conventions of the embedding:
* JS numbers carrying prices, rates and confidences are modelled as `ℚ`;
  millisecond timestamps as `ℤ`; integer-valued scores as `ℤ`.
* Strings ("LONG", "PREVIEW", "mid", ...) are kept as `String`, matching the
  string-tag encoding of the source.
* The calls into the external `technicalindicators` npm package
  (`RSI.calculate`, `MACD.calculate`, `BollingerBands.calculate`,
  `ATR.calculate`) are external collaborators: their result arrays are inputs
  (`LibInd`) to `computeIndicatorsFromCandles`, which embeds the repository's
  own post-processing (last-element-or-null, volume ratio, Bollinger width
  class and position).
* Network fetches (candle rows, 24h ticker, premium index) are likewise
  inputs; the Redis state store is modelled as an explicit `Store` record
  threaded through each operation (cooldown, pending-confirmation,
  last-signal pointer, and the dedupe id set).  TTLs only bound storage
  lifetime, not gate logic, and are not modelled.
* `Number(x)` coercions of possibly-missing JSON fields are modelled with
  `Option` where the source tests `Number.isFinite` / null-ness of the field.
* `roundToTick` is modelled over exact rationals; the trailing
  `Number(out.toFixed(dec))` of the source is a floating-point repair step
  that is the identity on exact multiples of the tick and is omitted.
-/

namespace TradeBot

/-- CONFIG.MIN_CONF_SHOW (trade-bot.js line 6). -/
def MIN_CONF_SHOW : ℚ := 60

/-- CONFIG.MIN_CONF_CONFIRMED (trade-bot.js line 6). -/
def MIN_CONF_CONFIRMED : ℚ := 60

/-- CONFIG.COOLDOWN_CONFIRMED_MIN, in minutes (trade-bot.js line 7). -/
def COOLDOWN_CONFIRMED_MIN : ℤ := 30

/-- CONFIG.COOLDOWN_INVALIDATED_MIN, in minutes (trade-bot.js line 7). -/
def COOLDOWN_INVALIDATED_MIN : ℤ := 15

/-- CONFIG.ATR_PERIOD (trade-bot.js line 8). -/
def ATR_PERIOD : ℕ := 14

/-- CONFIG.SL_ATR_MULT_LOW (trade-bot.js line 8). -/
def SL_ATR_MULT_LOW : ℚ := 2

/-- CONFIG.SL_ATR_MULT_HIGH (trade-bot.js line 8). -/
def SL_ATR_MULT_HIGH : ℚ := 3

/-- CONFIG.RR_BASE (trade-bot.js line 9). -/
def RR_BASE : ℚ := 3/2

/-- CONFIG.RR_HIGH (trade-bot.js line 9). -/
def RR_HIGH : ℚ := 2

/-- CONFIG.MIN_SL_BPS (trade-bot.js line 9). -/
def MIN_SL_BPS : ℚ := 10

/-- CONFIG.MIN_TP_BPS (trade-bot.js line 9). -/
def MIN_TP_BPS : ℚ := 15

/-- CONFIG.LIQ_THR_HIGH (trade-bot.js line 10). -/
def LIQ_THR_HIGH : ℚ := 8

/-- CONFIG.LIQ_THR_MED (trade-bot.js line 10). -/
def LIQ_THR_MED : ℚ := 6

/-- CONFIG.LIQ_THR_LOW (trade-bot.js line 10). -/
def LIQ_THR_LOW : ℚ := 4

/-- CONFIG.LIQ_PENALTY_HIGH (trade-bot.js line 11). -/
def LIQ_PENALTY_HIGH : ℚ := 10

/-- CONFIG.LIQ_PENALTY_MED (trade-bot.js line 11). -/
def LIQ_PENALTY_MED : ℚ := 7

/-- CONFIG.LIQ_PENALTY_LOW (trade-bot.js line 11). -/
def LIQ_PENALTY_LOW : ℚ := 4

/-- CONFIG.LIQ_BONUS_ALIGN (trade-bot.js line 11). -/
def LIQ_BONUS_ALIGN : ℚ := 5

/-- CONFIG.FUNDING_WARN_MINUTES (trade-bot.js line 12). -/
def FUNDING_WARN_MINUTES : ℤ := 30

/-- CONFIG.FUNDING_RATE_ABS_WARN = 0.0002 (trade-bot.js line 12). -/
def FUNDING_RATE_ABS_WARN : ℚ := 2/10000

/-- CONFIG.DEDUPE_SCOPE_SECONDS (trade-bot.js line 14). -/
def DEDUPE_SCOPE_SECONDS : ℤ := 120

/-- CONFIG.TREND_UP_PCT (trade-bot.js line 15). -/
def TREND_UP_PCT : ℚ := 2

/-- CONFIG.TREND_DN_PCT (trade-bot.js line 15). -/
def TREND_DN_PCT : ℚ := -2

/-- `clamp(x, a, b) = Math.max(a, Math.min(b, x))` (trade-bot.js line 22). -/
def clamp (x a b : ℚ) : ℚ := max a (min b x)

/-- `bpsToDist(price, bps) = price * (bps / 10000)` (trade-bot.js line 29). -/
def bpsToDist (price bps : ℚ) : ℚ := price * (bps / 10000)

/-- `floorTimeBucket(ms, bucketSec) = Math.floor(ms / (bucketSec*1000)) * (bucketSec*1000)`
(trade-bot.js line 21); `Int.fdiv` is floor division, matching `Math.floor`. -/
def floorTimeBucket (ms bucketSec : ℤ) : ℤ := (ms.fdiv (bucketSec * 1000)) * (bucketSec * 1000)

/-- `minutesTo(tsMs) = Math.floor((tsMs - nowMs()) / 60000)` (trade-bot.js line 28),
with the current time passed explicitly. -/
def minutesTo (tsMs nowT : ℤ) : ℤ := (tsMs - nowT).fdiv 60000

/-- Last element of the `technicalindicators` MACD output; only the
`histogram` field is consumed by the repository (and it may itself be absent
on short series, hence `Option`). -/
structure MacdVal where
  histogram : Option ℚ
deriving DecidableEq

/-- Last element of the `technicalindicators` Bollinger-bands output. -/
structure BBVal where
  upper : ℚ
  middle : ℚ
  lower : ℚ
deriving DecidableEq

/-- Parsed candle arrays as produced by `parseCandleRows` (trade-bot.js
lines 65-71). -/
structure Candles where
  opens : List ℚ
  high : List ℚ
  low : List ℚ
  close : List ℚ
  volume : List ℚ
  closeTime : List ℤ
deriving DecidableEq

/-- Result arrays of the four `technicalindicators` library calls made by
`computeIndicatorsFromCandles`; the library is an external collaborator, so
its outputs are inputs of the embedding. -/
structure LibInd where
  rsiArr : List ℚ
  macdArr : List MacdVal
  bbArr : List BBVal
  atrArr : List ℚ
deriving DecidableEq

/-- IndicatorSnapshot: the record returned by `computeIndicatorsFromCandles`
(trade-bot.js line 86).  `volRat` embeds the source's volume-ratio field
(renamed from the source spelling for lexical reasons). -/
structure Ind where
  rsi : Option ℚ
  macd : Option MacdVal
  bb : Option BBVal
  bbWidthClass : String
  bbPos : ℤ
  atr : Option ℚ
  volRat : ℚ
  lastClose : ℚ
  lastCandleCloseTime : ℤ
deriving DecidableEq

/-- `computeIndicatorsFromCandles` (trade-bot.js lines 72-87): given the
parsed candles and the library outputs, take the last element of each result
array (or null), compute the 20-period trailing volume ratio, and classify
Bollinger width and position.  The `bb && bb.middle && bb.upper && bb.lower`
truthiness test of the source is `≠ 0` on each band. -/
def computeIndicatorsFromCandles (c : Candles) (lib : LibInd) : Ind :=
  let rsi := lib.rsiArr.getLast?
  let macd := lib.macdArr.getLast?
  let bb := lib.bbArr.getLast?
  let atr := lib.atrArr.getLast?
  let vols := c.volume
  let lastVol := vols.getLast?.getD 0
  let avgVol : ℚ :=
    if vols.length ≥ 20 then ((vols.drop (vols.length - 20)).foldl (· + ·) 0) / 20
    else (vols.foldl (· + ·) 0) / (max 1 vols.length : ℕ)
  let volRat := if avgVol > 0 then lastVol / avgVol else 1
  let lastClose := c.close.getLast?.getD 0
  let wp : String × ℤ :=
    match bb with
    | some b =>
      if b.middle ≠ 0 ∧ b.upper ≠ 0 ∧ b.lower ≠ 0 then
        let widthPct := (b.upper - b.lower) / b.middle
        let wcls := if widthPct ≥ 4/100 then "high" else if widthPct ≤ 2/100 then "low" else "mid"
        let pos : ℤ := if lastClose > b.middle then 1 else if lastClose < b.middle then -1 else 0
        (wcls, pos)
      else ("mid", 0)
    | none => ("mid", 0)
  { rsi := rsi, macd := macd, bb := bb, bbWidthClass := wp.1, bbPos := wp.2, atr := atr,
    volRat := volRat, lastClose := lastClose,
    lastCandleCloseTime := c.closeTime.getLast?.getD 0 }

/-- 24h ticker fields consumed by the pipeline (`priceChangePercent`,
`highPrice`, `lowPrice`, and the `lastPrice || last || closePrice || price`
fallback chain collapsed into `lastPrice`). -/
structure Ticker24 where
  priceChangePercent : ℚ
  highPrice : ℚ
  lowPrice : ℚ
  lastPrice : ℚ
deriving DecidableEq

/-- `classifyTrend` (trade-bot.js lines 88-94). -/
def classifyTrend (t : Ticker24) (ind : Ind) : String :=
  let chg := t.priceChangePercent
  let base := if chg > TREND_UP_PCT then "UP" else if chg < TREND_DN_PCT then "DOWN" else "SIDE"
  let s0 : ℤ := (if base = "UP" then 2 else 0) + (if base = "DOWN" then -2 else 0)
  let sMacd : ℤ :=
    match ind.macd with
    | some m =>
      match m.histogram with
      | some h => (if h > 0 then 1 else 0) + (if h < 0 then -1 else 0)
      | none => 0
    | none => 0
  let score := s0 + sMacd + ind.bbPos
  if score ≥ 2 then "UP" else if score ≤ -2 then "DOWN" else "SIDE"

/-- MomentumProfile: `{score, strength}`. -/
structure Momentum where
  score : ℤ
  strength : String
deriving DecidableEq

/-- `computeMomentum` (trade-bot.js lines 95-101). -/
def computeMomentum (ind : Ind) : Momentum :=
  let s1 : ℤ :=
    match ind.rsi with
    | some r => if r ≥ 60 then 2 else if r ≥ 52 then 1 else if r ≤ 40 then -2 else if r ≤ 48 then -1 else 0
    | none => 0
  let s2 : ℤ := s1 + (if ind.volRat ≥ 3/2 then 2 else if ind.volRat ≥ 11/10 then 1 else if ind.volRat ≤ 7/10 then -1 else 0)
  let score := s2 + (if ind.bbWidthClass = "high" then 1 else 0) + (if ind.bbWidthClass = "low" then -1 else 0)
  let strength := if score.natAbs ≥ 4 then "STRONG" else if score.natAbs ≥ 2 then "MED" else "WEAK"
  { score := score, strength := strength }

/-- DirectionCandidate: `{dir, reason}`. -/
structure Cand where
  dir : String
  reason : String
deriving DecidableEq

/-- `directionCandidate` (trade-bot.js lines 102-108). -/
def directionCandidate (trend : String) (ind : Ind) : Cand :=
  if trend = "UP" then
    match ind.rsi with
    | some r =>
      if r ≥ 70 then { dir := "SHORT_CANDIDATE", reason := "RSI_OVERBOUGHT_IN_UPTREND" }
      else { dir := "LONG", reason := "UPTREND_RSI_OK" }
    | none => { dir := "LONG", reason := "UPTREND_RSI_OK" }
  else if trend = "DOWN" then
    match ind.rsi with
    | some r =>
      if r ≤ 30 then { dir := "LONG_CANDIDATE", reason := "RSI_OVERSOLD_IN_DOWNTREND" }
      else { dir := "SHORT", reason := "DOWNTREND_RSI_OK" }
    | none => { dir := "SHORT", reason := "DOWNTREND_RSI_OK" }
  else
    match ind.rsi, ind.macd.bind MacdVal.histogram with
    | some r, some h =>
      if r > 55 ∧ h > 0 then { dir := "LONG", reason := "SIDE_BULL_BIAS" }
      else if r < 45 ∧ h < 0 then { dir := "SHORT", reason := "SIDE_BEAR_BIAS" }
      else { dir := "NO_TRADE", reason := "SIDE_NO_EDGE" }
    | _, _ => { dir := "NO_TRADE", reason := "SIDE_NO_EDGE" }

/-- The `"LONG_CANDIDATE" → "LONG"` / `"SHORT_CANDIDATE" → "SHORT"`
resolution applied by both orchestrator functions (trade-bot.js line 152). -/
def resolveDir (d : String) : String :=
  if d = "LONG_CANDIDATE" then "LONG" else if d = "SHORT_CANDIDATE" then "SHORT" else d

/-- The `isReversal` flag set alongside `resolveDir` (trade-bot.js line 152). -/
def isCandidateDir (d : String) : Bool :=
  d = "LONG_CANDIDATE" ∨ d = "SHORT_CANDIDATE"

/-- `baseConfidence` (trade-bot.js lines 109-115). -/
def baseConfidence (trend : String) (momentum : Momentum) (t : Ticker24) : ℚ :=
  let vol : ℚ := if t.lastPrice > 0 then ((t.highPrice - t.lowPrice) / t.lastPrice) * 100 else 0
  let aligned := (trend = "UP" ∧ momentum.score > 0) ∨ (trend = "DOWN" ∧ momentum.score < 0) ∨
    (trend = "SIDE" ∧ momentum.score.natAbs ≥ 2)
  let c1 : ℚ := 50 + (if aligned then 10 else -8)
  let c2 : ℚ := c1 + (if momentum.strength = "STRONG" then 15 else if momentum.strength = "MED" then 8 else -5)
  let c3 : ℚ := c2 + (if vol > 5 then 8 else if vol > 2 then 4 else -3)
  clamp c3 0 100

/-- Liquidation snapshot read from the external liquidation feed
(`getLiquidationFromRedis`, trade-bot.js lines 116-119). -/
structure Liq where
  intensityScore : ℚ
  dirBias : ℤ
  notionalSum : ℚ
deriving DecidableEq

/-- RiskAdjustment: result of `applyLiquidationAdjustments`. -/
structure LiqAdj where
  confidence : ℚ
  veto : Bool
  warnings : List String
deriving DecidableEq

/-- `applyLiquidationAdjustments` (trade-bot.js lines 120-130). -/
def applyLiquidationAdjustments (direction : String) (confidence : ℚ) (liq : Liq) : LiqAdj :=
  let veto : Bool := decide
    ((direction = "LONG" ∧ liq.dirBias = 1 ∧ liq.intensityScore ≥ LIQ_THR_HIGH) ∨
     (direction = "SHORT" ∧ liq.dirBias = -1 ∧ liq.intensityScore ≥ LIQ_THR_HIGH))
  let pw : ℚ × List String :=
    if liq.intensityScore ≥ LIQ_THR_HIGH then (confidence - LIQ_PENALTY_HIGH, ["LIQ_INTENSITY_HIGH"])
    else if liq.intensityScore ≥ LIQ_THR_MED then (confidence - LIQ_PENALTY_MED, ["LIQ_INTENSITY_MED"])
    else if liq.intensityScore ≥ LIQ_THR_LOW then (confidence - LIQ_PENALTY_LOW, ["LIQ_INTENSITY_LOW"])
    else (confidence, [])
  let aligns := (direction = "SHORT" ∧ liq.dirBias = 1) ∨ (direction = "LONG" ∧ liq.dirBias = -1)
  let conf2 := if aligns then pw.1 + LIQ_BONUS_ALIGN else pw.1
  let warns := if aligns then pw.2 ++ ["LIQ_ALIGNS_WITH_SIGNAL"] else pw.2
  { confidence := clamp conf2 0 100, veto := veto, warnings := warns }

/-- `chooseSLMult` (trade-bot.js lines 131-133). -/
def chooseSLMult (confidence : ℚ) (momentumStrength : String) (isReversal : Bool)
    (liqIntensity : ℚ) (bbWidthClass : String) : ℚ :=
  let m1 := SL_ATR_MULT_LOW
  let m2 := if isReversal then max m1 (5/2) else m1
  let m3 := if confidence < 68 then max m2 (5/2) else m2
  let m4 := if liqIntensity ≥ LIQ_THR_MED then max m3 (5/2) else m3
  let m5 := if bbWidthClass = "high" then max m4 (5/2) else m4
  min SL_ATR_MULT_HIGH m5

/-- `chooseRR` (trade-bot.js line 135). -/
def chooseRR (confidence : ℚ) (momentumStrength : String) : ℚ :=
  if confidence ≥ 75 ∧ momentumStrength = "STRONG" then RR_HIGH else RR_BASE

/-- TargetPlan: result record of `pickTpSlATR`. -/
structure TpSl where
  slPrice : ℚ
  tpPrice : ℚ
  atr : ℚ
  slAtrMult : ℚ
  rr : ℚ
deriving DecidableEq

/-- `pickTpSlATR` (trade-bot.js lines 136-141). -/
def pickTpSlATR (entry atr : ℚ) (direction : String) (confidence : ℚ)
    (momentumStrength : String) (isReversal : Bool) (liqIntensity : ℚ)
    (bbWidthClass : String) : Option TpSl :=
  if ¬ (atr > 0) then none else
  let slMult := chooseSLMult confidence momentumStrength isReversal liqIntensity bbWidthClass
  let rr := chooseRR confidence momentumStrength
  let slDist0 := slMult * atr
  let tpDist0 := rr * slDist0
  let slDist := max slDist0 (bpsToDist entry MIN_SL_BPS)
  let tpDist := max tpDist0 (bpsToDist entry MIN_TP_BPS)
  if direction = "LONG" then
    some { slPrice := entry - slDist, tpPrice := entry + tpDist, atr := atr, slAtrMult := slMult, rr := rr }
  else
    some { slPrice := entry + slDist, tpPrice := entry - tpDist, atr := atr, slAtrMult := slMult, rr := rr }

/-- `roundToTick` (trade-bot.js lines 51-56) over exact rationals; the
closing `Number(out.toFixed(dec))` float repair is the identity here. -/
def roundToTick (price step : ℚ) (mode : String) : ℚ :=
  if ¬ (step > 0) then price else
  let eps : ℚ := 1/1000000000000
  let raw := price / step
  let n : ℤ := if mode = "up" then ⌈raw - eps⌉ else if mode = "down" then ⌊raw + eps⌋ else round raw
  (n : ℚ) * step

/-- `roundSLTP` (trade-bot.js lines 57-64); returns `(slPrice, tpPrice)`. -/
def roundSLTP (entry sl tp tickSize : ℚ) (direction : String) : ℚ × ℚ :=
  if direction = "LONG" then
    (min (roundToTick sl tickSize "down") (entry - tickSize),
     max (roundToTick tp tickSize "up") (entry + tickSize))
  else
    (max (roundToTick sl tickSize "up") (entry + tickSize),
     min (roundToTick tp tickSize "down") (entry - tickSize))

/-- `makePreviewId` (trade-bot.js line 142). -/
def makePreviewId (symbol direction : String) (bucketMs : ℤ) : String :=
  "PREVIEW|" ++ symbol ++ "|" ++ direction ++ "|" ++ toString bucketMs

/-- `makeConfirmedId` (trade-bot.js line 143). -/
def makeConfirmedId (symbol direction : String) (candleCloseTimeMs : ℤ) : String :=
  "CONFIRMED|" ++ symbol ++ "|" ++ direction ++ "|" ++ toString candleCloseTimeMs

/-- Premium-index row fields consumed by the pipeline: `markPrice`,
`nextFundingTime`, `lastFundingRate`.  The latter two are `Option` because
the source guards them with `Number.isFinite` / `Math.abs` on a possibly-NaN
`Number(...)` coercion. -/
structure Premium where
  markPrice : ℚ
  nextFundingTime : Option ℤ
  lastFundingRate : Option ℚ
deriving DecidableEq

/-- The funding-warning condition of trade-bot.js line 157:
`Number.isFinite(nextFundingMs) && minutesTo(nextFundingMs) <= 30 && Math.abs(lastFundingRate) >= 0.0002`. -/
def fundingSoonHighRate (pr : Premium) (nowT : ℤ) : Bool :=
  match pr.nextFundingTime, pr.lastFundingRate with
  | some ft, some fr =>
    decide (minutesTo ft nowT ≤ FUNDING_WARN_MINUTES ∧ |fr| ≥ FUNDING_RATE_ABS_WARN)
  | _, _ => false

/-- SignalMeta: the `meta` object attached to emitted PREVIEW/CONFIRMED
signals (`{atr, slAtrMult, rr, tickSize}`). -/
structure SigMeta where
  atr : ℚ
  slAtrMult : ℚ
  rr : ℚ
  tickSize : ℚ
deriving DecidableEq

/-- Signal: the record returned by the orchestrator operations.  Prices are
`Option` because INVALIDATED signals carry `null` there; `meta` is `none`
for the empty `{}` object. -/
structure Signal where
  id : String
  symbol : String
  mode : String
  direction : String
  confidence : ℚ
  entryRefPrice : Option ℚ
  tpPrice : Option ℚ
  slPrice : Option ℚ
  meta : Option SigMeta
  reasons : List String
  warnings : List String
  createdTs : ℤ
  confirmedTs : Option ℤ
deriving DecidableEq

/-- `snapshot_metrics` stored inside a pending confirmation
(trade-bot.js line 163). -/
structure SnapshotMetrics where
  momentumScore : ℤ
  bbWidthClass : String
  atr : ℚ
  lastCandleCloseTime : ℤ
deriving DecidableEq

/-- PendingConfirmation: the per-symbol pending record (trade-bot.js
line 163).  `snapshot_metrics` is `Option` because the source reads it with
`p.snapshot_metrics?.momentumScore ?? ...`. -/
structure Pending where
  signal_id : String
  direction : String
  created_ts : ℤ
  confirm_requested : Bool
  snapshot_metrics : Option SnapshotMetrics
deriving DecidableEq

/-- The `last signal` pointer persisted by `saveLastSignal`. -/
structure LastSig where
  ts : ℤ
  id : String
  mode : String
  reason : Option String
deriving DecidableEq

/-- The three symbol-scoped Redis values read by `getState`
(trade-bot.js lines 35-40); a missing cooldown key reads as 0. -/
structure SymState where
  cooldown_until_ts : ℤ
  pending_confirm : Option Pending
  last_signal : Option LastSig
deriving DecidableEq

/-- The state-store slice an evaluation touches: the symbol-scoped state plus
the global dedupe namespace (the set of claimed signal ids; entries within
one dedupe bucket cannot have expired, so the TTL is not modelled). -/
structure Store where
  sym : SymState
  dedupe : List String
deriving DecidableEq

/-- `tryDedupeOrDrop` (trade-bot.js line 45): atomic set-if-absent on the
dedupe key; returns whether the claim succeeded, with the updated store. -/
def tryDedupeOrDrop (signalId : String) (st : Store) : Bool × Store :=
  if signalId ∈ st.dedupe then (false, st)
  else (true, { st with dedupe := signalId :: st.dedupe })

/-- Result of `userRequestConfirm`. -/
structure ConfirmRes where
  ok : Bool
  reason : Option String
deriving DecidableEq

/-- `userRequestConfirm` (trade-bot.js lines 167-170): flips
`confirm_requested` on a live pending confirmation, else reports
NO_PENDING_PREVIEW. -/
def userRequestConfirm (st : Store) : ConfirmRes × Store :=
  match st.sym.pending_confirm with
  | none => ({ ok := false, reason := some "NO_PENDING_PREVIEW" }, st)
  | some p =>
    ({ ok := true, reason := none },
     { st with sym := { st.sym with pending_confirm := some { p with confirm_requested := true } } })

/-- `invalidate` (trade-bot.js lines 200-204): arm the 15-minute cooldown,
clear the pending confirmation, persist the last-signal pointer, and return
the INVALIDATED signal. -/
def invalidate (symbol reason : String) (nowT : ℤ) (st : Store) : Option Signal × Store :=
  let cooldownUntil := nowT + COOLDOWN_INVALIDATED_MIN * 60000
  let invId := "INVALID|" ++ symbol ++ "|" ++ toString (floorTimeBucket nowT 60) ++ "|" ++ reason
  let lastSig : LastSig := { ts := nowT, id := invId, mode := "INVALIDATED", reason := some reason }
  let sym1 : SymState :=
    { cooldown_until_ts := cooldownUntil, pending_confirm := none, last_signal := some lastSig }
  let st1 : Store := { st with sym := sym1 }
  (some { id := invId, symbol := symbol, mode := "INVALIDATED", direction := "NONE",
          confidence := 0, entryRefPrice := none, tpPrice := none, slPrice := none,
          meta := none, reasons := [reason], warnings := [], createdTs := nowT,
          confirmedTs := none }, st1)

/-- Decision tree of `evaluateIntrabarForSymbol` (trade-bot.js lines
147-165) after its cooldown and data-presence gates.  The pipeline stage
values (`ind`, `trend`, `momentum`, `cand`), bound by `const` declarations in
the source, are taken as parameters here and bound by
`evaluateIntrabarCore`; the remaining derived values are written inline. -/
def intrabarBranch (nowT : ℤ) (symbol : String) (tickSize : ℚ)
    (t24 : Ticker24) (pr : Premium) (c : Candles) (liq : Liq) (st : Store)
    (ind : Ind) (trend : String) (momentum : Momentum) (cand : Cand) : Option Signal × Store :=
  if c.close.length < ATR_PERIOD + 2 then (none, st) else
  if ind.rsi = none ∨ ind.macd = none ∨ ind.bb = none ∨ ind.atr = none then (none, st) else
  if cand.dir = "NO_TRADE" then (none, st) else
  if (applyLiquidationAdjustments (resolveDir cand.dir) (baseConfidence trend momentum t24) liq).veto then
    (none, st) else
  if (applyLiquidationAdjustments (resolveDir cand.dir) (baseConfidence trend momentum t24) liq).confidence <
      MIN_CONF_SHOW then (none, st) else
  if ¬ (pr.markPrice > 0) then (none, st) else
  match pickTpSlATR pr.markPrice (ind.atr.getD 0) (resolveDir cand.dir)
      (applyLiquidationAdjustments (resolveDir cand.dir) (baseConfidence trend momentum t24) liq).confidence
      momentum.strength (isCandidateDir cand.dir) liq.intensityScore ind.bbWidthClass with
  | none => (none, st)
  | some tpsl =>
    match tryDedupeOrDrop (makePreviewId symbol (resolveDir cand.dir)
        (floorTimeBucket nowT DEDUPE_SCOPE_SECONDS)) st with
    | (false, st1) => (none, st1)
    | (true, st1) =>
      let direction := resolveDir cand.dir
      let conf := (applyLiquidationAdjustments direction (baseConfidence trend momentum t24) liq).confidence
      let warnings := (applyLiquidationAdjustments direction (baseConfidence trend momentum t24) liq).warnings ++
        (if fundingSoonHighRate pr nowT then ["FUNDING_SOON_HIGH_RATE"] else [])
      let rounded := roundSLTP pr.markPrice tpsl.slPrice tpsl.tpPrice tickSize direction
      let sigId := makePreviewId symbol direction (floorTimeBucket nowT DEDUPE_SCOPE_SECONDS)
      let signal : Signal :=
        { id := sigId, symbol := symbol, mode := "PREVIEW", direction := direction,
          confidence := conf, entryRefPrice := some pr.markPrice, tpPrice := some rounded.2,
          slPrice := some rounded.1,
          meta := some { atr := tpsl.atr, slAtrMult := tpsl.slAtrMult, rr := tpsl.rr, tickSize := tickSize },
          reasons := [cand.reason, "TREND=" ++ trend, "MOM=" ++ momentum.strength, "ATR_TPSL", "TICK_ROUNDED"],
          warnings := warnings, createdTs := nowT, confirmedTs := none }
      let pendingObj : Pending :=
        { signal_id := sigId, direction := direction, created_ts := nowT,
          confirm_requested := false,
          snapshot_metrics := some { momentumScore := momentum.score, bbWidthClass := ind.bbWidthClass,
                                     atr := ind.atr.getD 0, lastCandleCloseTime := ind.lastCandleCloseTime } }
      let lastSig : LastSig := { ts := nowT, id := sigId, mode := "PREVIEW", reason := none }
      let sym2 : SymState :=
        { st1.sym with pending_confirm := some pendingObj, last_signal := some lastSig }
      (some signal, { st1 with sym := sym2 })

/-- Body of `evaluateIntrabarForSymbol` after its gates: binds the pipeline
stage values and runs the decision tree. -/
def evaluateIntrabarCore (nowT : ℤ) (symbol : String) (tickSize : ℚ)
    (t24 : Ticker24) (pr : Premium)
    (c : Candles) (lib : LibInd) (liq : Liq) (st : Store) : Option Signal × Store :=
  let ind := computeIndicatorsFromCandles c lib
  let trend := classifyTrend t24 ind
  let momentum := computeMomentum ind
  intrabarBranch nowT symbol tickSize t24 pr c liq st ind trend momentum
    (directionCandidate trend ind)

/-- `evaluateIntrabarForSymbol` (trade-bot.js lines 144-166): the cooldown
gate (`now < cooldown_until_ts` is a no-op) and the ticker/premium presence
gate, then the pipeline body.  The fetched ticker/premium rows, parsed
candle rows, library outputs and liquidation snapshot are inputs; the store
is threaded explicitly. -/
def evaluateIntrabarForSymbol (nowT : ℤ) (symbol : String) (tickSize : ℚ)
    (ticker24 : Option Ticker24) (prem : Option Premium)
    (c : Candles) (lib : LibInd) (liq : Liq) (st : Store) : Option Signal × Store :=
  if nowT < st.sym.cooldown_until_ts then (none, st) else
  match ticker24, prem with
  | some t24, some pr => evaluateIntrabarCore nowT symbol tickSize t24 pr c lib liq st
  | _, _ => (none, st)

/-- Decision tree of `confirmOnCloseForSymbol` (trade-bot.js lines 174-198)
after its pending/confirm-requested and data-presence gates, for a live,
confirm-requested pending confirmation `p`.  As with `intrabarBranch`, the
pipeline stage values are parameters, bound by `confirmOnCloseCore`. -/
def closeBranch (nowT : ℤ) (symbol : String) (tickSize : ℚ)
    (t24 : Ticker24) (pr : Premium) (c : Candles) (liq : Liq) (st : Store) (p : Pending)
    (ind : Ind) (trend : String) (momentum : Momentum) (cand : Cand) : Option Signal × Store :=
  if c.close.length < ATR_PERIOD + 2 then invalidate symbol "CLOSE_ATR_UNAVAILABLE" nowT st else
  if ind.rsi = none ∨ ind.macd = none ∨ ind.bb = none ∨ ind.atr = none then
    invalidate symbol "CLOSE_ATR_UNAVAILABLE" nowT st else
  if cand.dir = "NO_TRADE" then invalidate symbol "CLOSE_NO_TRADE" nowT st else
  if resolveDir cand.dir ≠ p.direction then invalidate symbol "CLOSE_DIRECTION_CHANGED" nowT st else
  if isCandidateDir cand.dir ∧
      ¬ ((resolveDir cand.dir = "SHORT" ∧ ind.rsi.getD 0 < 70) ∨
         (resolveDir cand.dir = "LONG" ∧ ind.rsi.getD 0 > 30) ∨
         momentum.score < (match p.snapshot_metrics with | some sm => sm.momentumScore | none => momentum.score) ∨
         momentum.score > (match p.snapshot_metrics with | some sm => sm.momentumScore | none => momentum.score)) then
    invalidate symbol "CLOSE_REVERSAL_NOT_CONFIRMED" nowT st else
  if (applyLiquidationAdjustments (resolveDir cand.dir) (baseConfidence trend momentum t24) liq).veto then
    invalidate symbol "CLOSE_LIQ_VETO" nowT st else
  if (applyLiquidationAdjustments (resolveDir cand.dir) (baseConfidence trend momentum t24) liq).confidence <
      MIN_CONF_CONFIRMED then invalidate symbol "CLOSE_CONFIDENCE_LOW" nowT st else
  if ¬ (pr.markPrice > 0) then invalidate symbol "CLOSE_BAD_ENTRY" nowT st else
  match pickTpSlATR pr.markPrice (ind.atr.getD 0) (resolveDir cand.dir)
      (applyLiquidationAdjustments (resolveDir cand.dir) (baseConfidence trend momentum t24) liq).confidence
      momentum.strength (isCandidateDir cand.dir) liq.intensityScore ind.bbWidthClass with
  | none => invalidate symbol "CLOSE_ATR_UNAVAILABLE" nowT st
  | some tpsl =>
    match tryDedupeOrDrop (makeConfirmedId symbol (resolveDir cand.dir) ind.lastCandleCloseTime) st with
    | (false, st1) => (none, st1)
    | (true, st1) =>
      let directionNow := resolveDir cand.dir
      let conf := (applyLiquidationAdjustments directionNow (baseConfidence trend momentum t24) liq).confidence
      let warnings := (applyLiquidationAdjustments directionNow (baseConfidence trend momentum t24) liq).warnings ++
        (if fundingSoonHighRate pr nowT then ["FUNDING_SOON_HIGH_RATE"] else [])
      let rounded := roundSLTP pr.markPrice tpsl.slPrice tpsl.tpPrice tickSize directionNow
      let sigId := makeConfirmedId symbol directionNow ind.lastCandleCloseTime
      let signal : Signal :=
        { id := sigId, symbol := symbol, mode := "CONFIRMED", direction := directionNow,
          confidence := conf, entryRefPrice := some pr.markPrice, tpPrice := some rounded.2,
          slPrice := some rounded.1,
          meta := some { atr := tpsl.atr, slAtrMult := tpsl.slAtrMult, rr := tpsl.rr, tickSize := tickSize },
          reasons := [cand.reason, "TREND=" ++ trend, "MOM=" ++ momentum.strength,
                      "CONFIRMED_ON_CLOSE", "ATR_TPSL", "TICK_ROUNDED"],
          warnings := warnings, createdTs := p.created_ts, confirmedTs := some nowT }
      let cooldownUntil := nowT + COOLDOWN_CONFIRMED_MIN * 60000
      let lastSig : LastSig := { ts := nowT, id := sigId, mode := "CONFIRMED", reason := none }
      let sym2 : SymState :=
        { cooldown_until_ts := cooldownUntil, pending_confirm := none, last_signal := some lastSig }
      (some signal, { st1 with sym := sym2 })

/-- Body of `confirmOnCloseForSymbol` after its gates: binds the pipeline
stage values and runs the decision tree. -/
def confirmOnCloseCore (nowT : ℤ) (symbol : String) (tickSize : ℚ)
    (t24 : Ticker24) (pr : Premium)
    (c : Candles) (lib : LibInd) (liq : Liq) (st : Store) (p : Pending) : Option Signal × Store :=
  let ind := computeIndicatorsFromCandles c lib
  let trend := classifyTrend t24 ind
  let momentum := computeMomentum ind
  closeBranch nowT symbol tickSize t24 pr c liq st p ind trend momentum
    (directionCandidate trend ind)

/-- `confirmOnCloseForSymbol` (trade-bot.js lines 171-199): no-op unless a
live pending confirmation with `confirm_requested = true` and present
ticker/premium rows, then the close re-evaluation body. -/
def confirmOnCloseForSymbol (nowT : ℤ) (symbol : String) (tickSize : ℚ)
    (ticker24 : Option Ticker24) (prem : Option Premium)
    (c : Candles) (lib : LibInd) (liq : Liq) (st : Store) : Option Signal × Store :=
  match st.sym.pending_confirm with
  | none => (none, st)
  | some p =>
    if p.confirm_requested ≠ true then (none, st) else
    match ticker24, prem with
    | some t24, some pr => confirmOnCloseCore nowT symbol tickSize t24 pr c lib liq st p
    | _, _ => (none, st)

end TradeBot

namespace Part2

open TradeBot

/-- The stub `fetchMarketData` result of src/unnamed/part_002 lines 89-99:
plain zero-valued numbers (not absent fields). -/
structure MarketData where
  markPrice : ℚ
  lastFundingRate : ℚ
  nextFundingTime : ℤ
deriving DecidableEq

/-- A placeholder `SKIP` signal as built inline by part_002's
`evaluateIntrabarForSymbol` failure branches: mode PREVIEW, no prices beyond
the entry reference, the branch reason. -/
def skipSignal (symbol : String) (direction : String) (confidence : ℚ) (entryRef : ℚ)
    (reasons : List String) (warnings : List String) (nowT : ℤ) : Signal :=
  { id := "SKIP|" ++ symbol, symbol := symbol, mode := "PREVIEW", direction := direction,
    confidence := confidence, entryRefPrice := some entryRef, tpPrice := none, slPrice := none,
    meta := none, reasons := reasons, warnings := warnings, createdTs := nowT, confirmedTs := none }

/-- `evaluateIntrabarForSymbol` of src/unnamed/part_002 (lines 251-306).
The pipeline functions (`computeIndicatorsFromCandles`, `classifyTrend`,
`computeMomentum`, `directionCandidate`, `baseConfidence`,
`applyLiquidationAdjustments`, `pickTpSlATR`, `roundSLTP`, `makePreviewId`)
are line-identical copies of the trade-bot.js ones and are shared; the daily
ticker row carries the same four fields as `Ticker24`.  This variant has the
cooldown gate commented out ("Skip cooldown check temporarily for
debugging", lines 252-253) and the dedupe claim commented out ("Skip dedupe
for debugging - always show signals", lines 293-294); it also applies no
veto or minimum-confidence gate. -/
def evaluateIntrabarForSymbol (nowT : ℤ) (symbol : String) (tickSize : ℚ)
    (tickerDaily : Option Ticker24) (md : MarketData)
    (c : Candles) (lib : LibInd) (liq : Liq) (st : Store) : Option Signal × Store :=
  match tickerDaily with
  | none => (some (skipSignal symbol "NONE" 0 0 ["NO_TICKER_DATA"] [] nowT), st)
  | some t =>
    if c.close.length < ATR_PERIOD + 2 then
      (some (skipSignal symbol "NONE" 0 t.lastPrice
        ["INSUFFICIENT_DATA_" ++ toString c.close.length ++ "_candles"] [] nowT), st) else
    let ind := computeIndicatorsFromCandles c lib
    if ind.rsi = none ∨ ind.macd = none ∨ ind.bb = none ∨ ind.atr = none then
      (some (skipSignal symbol "NONE" 0 t.lastPrice ["INDICATORS_NULL"] [] nowT), st) else
    let trend := classifyTrend t ind
    let momentum := computeMomentum ind
    let cand := directionCandidate trend ind
    let direction := resolveDir cand.dir
    let isReversal := isCandidateDir cand.dir
    if cand.dir = "NO_TRADE" then
      (some (skipSignal symbol "NONE" 0 t.lastPrice
        [cand.reason, "TREND=" ++ trend, "MOM=" ++ momentum.strength, "NO_TRADE_EDGE"] [] nowT), st) else
    let liqAdj := applyLiquidationAdjustments direction (baseConfidence trend momentum t) liq
    let conf := liqAdj.confidence
    let entry := t.lastPrice
    if ¬ (entry > 0) then
      (some (skipSignal symbol direction conf 0 ["BAD_ENTRY_PRICE"] [] nowT), st) else
    let warnings := liqAdj.warnings ++
      (if md.nextFundingTime > 0 ∧ minutesTo md.nextFundingTime nowT ≤ FUNDING_WARN_MINUTES ∧
          |md.lastFundingRate| ≥ FUNDING_RATE_ABS_WARN then ["FUNDING_SOON_HIGH_RATE"] else [])
    match pickTpSlATR entry (ind.atr.getD 0) direction conf momentum.strength isReversal
        liq.intensityScore ind.bbWidthClass with
    | none =>
      (some (skipSignal symbol direction conf entry ["ATR_TPSL_FAILED"] warnings nowT), st)
    | some tpsl =>
      let rounded := roundSLTP entry tpsl.slPrice tpsl.tpPrice tickSize direction
      let bucketMs := floorTimeBucket nowT DEDUPE_SCOPE_SECONDS
      let sigId := makePreviewId symbol direction bucketMs
      let signal : Signal :=
        { id := sigId, symbol := symbol, mode := "PREVIEW", direction := direction,
          confidence := conf, entryRefPrice := some entry, tpPrice := some rounded.2,
          slPrice := some rounded.1,
          meta := some { atr := tpsl.atr, slAtrMult := tpsl.slAtrMult, rr := tpsl.rr, tickSize := tickSize },
          reasons := [cand.reason, "TREND=" ++ trend, "MOM=" ++ momentum.strength, "ATR_TPSL", "TICK_ROUNDED"],
          warnings := warnings, createdTs := nowT, confirmedTs := none }
      let pendingObj : Pending :=
        { signal_id := sigId, direction := direction, created_ts := nowT,
          confirm_requested := false,
          snapshot_metrics := some { momentumScore := momentum.score, bbWidthClass := ind.bbWidthClass,
                                     atr := ind.atr.getD 0, lastCandleCloseTime := ind.lastCandleCloseTime } }
      let lastSig : LastSig := { ts := nowT, id := sigId, mode := "PREVIEW", reason := none }
      let sym2 : SymState :=
        { st.sym with pending_confirm := some pendingObj, last_signal := some lastSig }
      (some signal, { st with sym := sym2 })

end Part2

namespace TradeBot

/-- Concrete fixture: a 24h ticker with +3% change and a 20% daily range. -/
def t24G : Ticker24 := { priceChangePercent := 3, highPrice := 110, lowPrice := 90, lastPrice := 100 }

/-- Concrete fixture: premium-index row with mark price 100 and no funding data. -/
def premG : Premium := { markPrice := 100, nextFundingTime := none, lastFundingRate := none }

/-- Concrete fixture: 16 parsed hourly candles (enough for the
`ATR_PERIOD + 2` length gate), last close 105. -/
def candlesG : Candles :=
  { opens := List.replicate 16 100, high := List.replicate 16 100, low := List.replicate 16 100,
    close := List.replicate 15 100 ++ [105], volume := List.replicate 16 10,
    closeTime := List.replicate 16 999000 }

/-- Concrete fixture: indicator-library outputs whose last elements are
RSI 55, MACD histogram 1, Bollinger bands 110/100/90, ATR 2. -/
def libG : LibInd :=
  { rsiArr := [55], macdArr := [{ histogram := some 1 }],
    bbArr := [{ upper := 110, middle := 100, lower := 90 }], atrArr := [2] }

/-- Concrete fixture: neutral liquidation snapshot. -/
def liq0 : Liq := { intensityScore := 0, dirBias := 0, notionalSum := 0 }

/-- Concrete fixture: empty store (no cooldown, no pending, no claimed ids). -/
def store0 : Store := { sym := { cooldown_until_ts := 0, pending_confirm := none, last_signal := none }, dedupe := [] }

/-- Concrete fixture: a store whose symbol is in cooldown until t = 1900000 ms. -/
def storeCooldown : Store :=
  { sym := { cooldown_until_ts := 1900000, pending_confirm := none, last_signal := none }, dedupe := [] }

/-- Concrete fixture: a live pending confirmation for a LONG preview with
`confirm_requested = true` and momentum-score snapshot 2. -/
def pendingG : Pending :=
  { signal_id := "PREVIEW|BTCUSDT|LONG|960000", direction := "LONG", created_ts := 999500,
    confirm_requested := true,
    snapshot_metrics := some { momentumScore := 2, bbWidthClass := "high", atr := 2,
                               lastCandleCloseTime := 999000 } }

/-- Concrete fixture: a store holding `pendingG`. -/
def storePending : Store :=
  { sym := { cooldown_until_ts := 0, pending_confirm := some pendingG, last_signal := none }, dedupe := [] }

/-- Concrete fixture: a live pending confirmation for a SHORT preview with
`confirm_requested = true` (used to exercise direction drift at close). -/
def pendingShort : Pending :=
  { signal_id := "PREVIEW|BTCUSDT|SHORT|840000", direction := "SHORT", created_ts := 999500,
    confirm_requested := true,
    snapshot_metrics := some { momentumScore := 2, bbWidthClass := "high", atr := 2,
                               lastCandleCloseTime := 999000 } }

/-- Concrete fixture: a store holding `pendingShort`. -/
def storePendingShort : Store :=
  { sym := { cooldown_until_ts := 0, pending_confirm := some pendingShort, last_signal := none }, dedupe := [] }

/-- Concrete fixture: a single parsed candle — too short for the indicator
windows. -/
def candlesShort : Candles :=
  { opens := [100], high := [100], low := [100], close := [100], volume := [100],
    closeTime := [999000] }

/-- Concrete fixture: the INVALIDATED signal record produced when a close
evaluation at t = 1000000 fails with CLOSE_ATR_UNAVAILABLE. -/
def invalidatedAtrSig : Signal :=
  { id := "INVALID|BTCUSDT|960000|CLOSE_ATR_UNAVAILABLE", symbol := "BTCUSDT",
    mode := "INVALIDATED", direction := "NONE", confidence := 0, entryRefPrice := none,
    tpPrice := none, slPrice := none, meta := none, reasons := ["CLOSE_ATR_UNAVAILABLE"],
    warnings := [], createdTs := 1000000, confirmedTs := none }

/-- Concrete fixture: indicator-library outputs with RSI 75 (overbought),
yielding a SHORT_CANDIDATE reversal in an uptrend. -/
def libR : LibInd :=
  { rsiArr := [75], macdArr := [{ histogram := some 1 }],
    bbArr := [{ upper := 110, middle := 100, lower := 90 }], atrArr := [2] }

/-- Concrete fixture: a live pending SHORT-reversal confirmation whose
snapshot momentum score (3) matches the re-evaluated momentum score. -/
def pendingRev : Pending :=
  { signal_id := "PREVIEW|BTCUSDT|SHORT|840000", direction := "SHORT", created_ts := 999500,
    confirm_requested := true,
    snapshot_metrics := some { momentumScore := 3, bbWidthClass := "high", atr := 2,
                               lastCandleCloseTime := 999000 } }

/-- Concrete fixture: a store holding `pendingRev`. -/
def storePendingRev : Store :=
  { sym := { cooldown_until_ts := 0, pending_confirm := some pendingRev, last_signal := none }, dedupe := [] }

/-- Concrete fixture: a liquidation snapshot at intensity 9 with
direction bias +1 (longs liquidating). -/
def liqVeto : Liq := { intensityScore := 9, dirBias := 1, notionalSum := 0 }

/-- Concrete fixture: a premium row whose next funding time is 30.5 minutes
away (1830000 ms after t = 1000000) with funding rate 0.0003. -/
def premF : Premium :=
  { markPrice := 100, nextFundingTime := some 2830000, lastFundingRate := some (3/10000) }

/-- Concrete fixture: the PREVIEW signal emitted for the `premF` funding
scenario. -/
def previewSigF : Signal :=
  { id := "PREVIEW|BTCUSDT|LONG|960000", symbol := "BTCUSDT", mode := "PREVIEW",
    direction := "LONG", confidence := 76, entryRefPrice := some 100,
    tpPrice := some (215/2), slPrice := some 95,
    meta := some { atr := 2, slAtrMult := 5/2, rr := 3/2, tickSize := 1/100 },
    reasons := ["UPTREND_RSI_OK", "TREND=UP", "MOM=MED", "ATR_TPSL", "TICK_ROUNDED"],
    warnings := ["FUNDING_SOON_HIGH_RATE"], createdTs := 1000000, confirmedTs := none }

end TradeBot

namespace TradeBot

/-- `clamp x 0 100` always lands in `[0, 100]`. -/
theorem clamp_unit_bounds (x : ℚ) : 0 ≤ clamp x 0 100 ∧ clamp x 0 100 ≤ 100 := by
  unfold clamp
  exact ⟨le_max_left 0 _, max_le (by norm_num) (min_le_left _ _)⟩

/-- Any signal returned by `invalidate` is exactly the INVALIDATED record
with the given reason. -/
theorem invalidate_shape (symbol reason : String) (nowT : ℤ) (st : Store) (sig : Signal)
    (h : (invalidate symbol reason nowT st).1 = some sig) :
    sig = { id := "INVALID|" ++ symbol ++ "|" ++ toString (floorTimeBucket nowT 60) ++ "|" ++ reason,
            symbol := symbol, mode := "INVALIDATED", direction := "NONE", confidence := 0,
            entryRefPrice := none, tpPrice := none, slPrice := none, meta := none,
            reasons := [reason], warnings := [], createdTs := nowT, confirmedTs := none } := by
  unfold invalidate at h
  simp only [Option.some.injEq] at h
  exact h.symm

set_option maxHeartbeats 2000000 in
/-- Every result of the close decision tree is a silent no-op, an
`invalidate` result, or a CONFIRMED signal whose direction equals the
pending confirmation's direction. -/
theorem closeBranch_shape (nowT : ℤ) (symbol : String) (tickSize : ℚ)
    (t24 : Ticker24) (pr : Premium) (c : Candles) (liq : Liq) (st : Store) (p : Pending)
    (ind : Ind) (trend : String) (momentum : Momentum) (cand : Cand)
    (r : Option Signal × Store)
    (hr : closeBranch nowT symbol tickSize t24 pr c liq st p ind trend momentum cand = r) :
    r.1 = none ∨
    (∃ reason, r.1 = (invalidate symbol reason nowT st).1) ∨
    (∃ sig, r.1 = some sig ∧ sig.mode = "CONFIRMED" ∧ sig.direction = p.direction) := by
  unfold closeBranch at hr
  split at hr
  · subst hr; right; left; exact ⟨"CLOSE_ATR_UNAVAILABLE", rfl⟩
  split at hr
  · subst hr; right; left; exact ⟨"CLOSE_ATR_UNAVAILABLE", rfl⟩
  split at hr
  · subst hr; right; left; exact ⟨"CLOSE_NO_TRADE", rfl⟩
  split at hr
  · subst hr; right; left; exact ⟨"CLOSE_DIRECTION_CHANGED", rfl⟩
  next hdir =>
  split at hr
  · subst hr; right; left; exact ⟨"CLOSE_REVERSAL_NOT_CONFIRMED", rfl⟩
  split at hr
  · subst hr; right; left; exact ⟨"CLOSE_LIQ_VETO", rfl⟩
  split at hr
  · subst hr; right; left; exact ⟨"CLOSE_CONFIDENCE_LOW", rfl⟩
  split at hr
  · subst hr; right; left; exact ⟨"CLOSE_BAD_ENTRY", rfl⟩
  split at hr
  · subst hr; right; left; exact ⟨"CLOSE_ATR_UNAVAILABLE", rfl⟩
  next tpsl htpsl =>
  split at hr
  · subst hr; left; rfl
  next st1 hded =>
    subst hr; right; right
    exact ⟨_, rfl, rfl, not_not.mp hdir⟩

set_option maxHeartbeats 2000000 in
/-- Every result of the intrabar decision tree is a silent no-op or a
PREVIEW signal whose direction, confidence and warnings come from the
pipeline stages (in particular, the liquidation veto is false and the
confidence does not depend on the funding fields). -/
theorem intrabarBranch_shape (nowT : ℤ) (symbol : String) (tickSize : ℚ)
    (t24 : Ticker24) (pr : Premium) (c : Candles) (liq : Liq) (st : Store)
    (ind : Ind) (trend : String) (momentum : Momentum) (cand : Cand)
    (r : Option Signal × Store)
    (hr : intrabarBranch nowT symbol tickSize t24 pr c liq st ind trend momentum cand = r) :
    r.1 = none ∨
    (∃ sig, r.1 = some sig ∧ sig.mode = "PREVIEW" ∧
      sig.direction = resolveDir cand.dir ∧
      sig.confidence =
        (applyLiquidationAdjustments (resolveDir cand.dir) (baseConfidence trend momentum t24) liq).confidence ∧
      (applyLiquidationAdjustments (resolveDir cand.dir) (baseConfidence trend momentum t24) liq).veto = false ∧
      sig.warnings =
        (applyLiquidationAdjustments (resolveDir cand.dir) (baseConfidence trend momentum t24) liq).warnings ++
        (if fundingSoonHighRate pr nowT then ["FUNDING_SOON_HIGH_RATE"] else [])) := by
  unfold intrabarBranch at hr
  split at hr
  · subst hr; left; rfl
  split at hr
  · subst hr; left; rfl
  split at hr
  · subst hr; left; rfl
  split at hr
  · subst hr; left; rfl
  next hveto =>
  split at hr
  · subst hr; left; rfl
  split at hr
  · subst hr; left; rfl
  split at hr
  · subst hr; left; rfl
  next tpsl htpsl =>
  split at hr
  · subst hr; left; rfl
  next st1 hded =>
    subst hr; right
    exact ⟨_, rfl, rfl, rfl, rfl, Bool.eq_false_iff.mpr hveto, rfl⟩

/-- The gates of `confirmOnCloseForSymbol`: a missing or not-yet-requested
pending confirmation is a no-op, and otherwise (with data present) the close
body runs. -/
theorem confirmOnClose_gate (nowT : ℤ) (symbol : String) (tickSize : ℚ)
    (ticker24 : Option Ticker24) (prem : Option Premium)
    (c : Candles) (lib : LibInd) (liq : Liq) (st : Store) :
    (st.sym.pending_confirm = none →
      confirmOnCloseForSymbol nowT symbol tickSize ticker24 prem c lib liq st = (none, st)) ∧
    (∀ p, st.sym.pending_confirm = some p → p.confirm_requested = false →
      confirmOnCloseForSymbol nowT symbol tickSize ticker24 prem c lib liq st = (none, st)) ∧
    (∀ p t24 pr, st.sym.pending_confirm = some p → p.confirm_requested = true →
      ticker24 = some t24 → prem = some pr →
      confirmOnCloseForSymbol nowT symbol tickSize ticker24 prem c lib liq st =
        confirmOnCloseCore nowT symbol tickSize t24 pr c lib liq st p) := by
  refine ⟨fun h => ?_, fun p hp hreq => ?_, fun p t24 pr hp hreq ht hpr => ?_⟩
  · unfold confirmOnCloseForSymbol
    simp only [h]
  · unfold confirmOnCloseForSymbol
    simp only [hp, hreq]
    simp
  · unfold confirmOnCloseForSymbol
    simp only [hp, hreq, ht, hpr]
    simp

end TradeBot

namespace TradeBot

/-- C7: for every combination of trend, momentum, volatility input and
liquidation snapshot, the confidence value is in `[0, 100]` both after base
scoring (`baseConfidence`) and after liquidation risk adjustment
(`applyLiquidationAdjustments`): the clamp bounds hold for any inputs. -/
theorem claim_C7_confidence_clamp_bounds (trend : String) (momentum : Momentum) (t : Ticker24)
    (direction : String) (confidence : ℚ) (liq : Liq) :
    (0 ≤ baseConfidence trend momentum t ∧ baseConfidence trend momentum t ≤ 100) ∧
    (0 ≤ (applyLiquidationAdjustments direction confidence liq).confidence ∧
      (applyLiquidationAdjustments direction confidence liq).confidence ≤ 100) :=
  ⟨clamp_unit_bounds _, clamp_unit_bounds _⟩

/-- C8: with entry 100, ATR 2, direction LONG, confidence 80, STRONG
momentum, not a reversal, mid Bollinger width and neutral liquidation
intensity 0, the target planner picks slMultiplier 2.0 and risk/reward 2.0,
slDistance max(4, 0.10) = 4 giving stopLoss 96, and tpDistance
max(8, 0.15) = 8 giving takeProfit 108. -/
theorem claim_C8_target_planner_example :
    chooseSLMult 80 "STRONG" false 0 "mid" = 2 ∧
    chooseRR 80 "STRONG" = 2 ∧
    max (2 * 2) (bpsToDist 100 MIN_SL_BPS) = 4 ∧ max (2 * (2 * 2)) (bpsToDist 100 MIN_TP_BPS) = 8 ∧
    pickTpSlATR 100 2 "LONG" 80 "STRONG" false 0 "mid" =
      some { slPrice := 96, tpPrice := 108, atr := 2, slAtrMult := 2, rr := 2 } := by
  refine ⟨?_, ?_, ?_, ?_, ?_⟩
  · with_unfolding_all rfl
  · with_unfolding_all rfl
  · with_unfolding_all rfl
  · with_unfolding_all rfl
  · with_unfolding_all rfl

/-- C3: a close-confirmation evaluation never returns a CONFIRMED signal
unless the symbol has a live PendingConfirmation with
`confirm_requested = true`; with no pending confirmation, or with one whose
confirmation has not been requested, it is a no-op returning none; and
`userRequestConfirm` on a symbol with no live pending confirmation returns
`{ok := false, reason := "NO_PENDING_PREVIEW"}`. -/
theorem claim_C3_state_machine_safety (nowT : ℤ) (symbol : String) (tickSize : ℚ)
    (ticker24 : Option Ticker24) (prem : Option Premium)
    (c : Candles) (lib : LibInd) (liq : Liq) (st : Store) :
    (∀ sig, (confirmOnCloseForSymbol nowT symbol tickSize ticker24 prem c lib liq st).1 = some sig →
      sig.mode = "CONFIRMED" →
      ∃ p, st.sym.pending_confirm = some p ∧ p.confirm_requested = true) ∧
    (st.sym.pending_confirm = none →
      confirmOnCloseForSymbol nowT symbol tickSize ticker24 prem c lib liq st = (none, st)) ∧
    (∀ p, st.sym.pending_confirm = some p → p.confirm_requested = false →
      confirmOnCloseForSymbol nowT symbol tickSize ticker24 prem c lib liq st = (none, st)) ∧
    (st.sym.pending_confirm = none →
      userRequestConfirm st = ({ ok := false, reason := some "NO_PENDING_PREVIEW" }, st)) := by
  refine ⟨?_, (confirmOnClose_gate nowT symbol tickSize ticker24 prem c lib liq st).1,
    (confirmOnClose_gate nowT symbol tickSize ticker24 prem c lib liq st).2.1, fun h => ?_⟩
  · intro sig h hmode
    rcases hp : st.sym.pending_confirm with _ | p
    · rw [(confirmOnClose_gate nowT symbol tickSize ticker24 prem c lib liq st).1 hp] at h
      simp at h
    · by_cases hreq : p.confirm_requested = true
      · exact ⟨p, hp ▸ rfl, hreq⟩
      · rw [(confirmOnClose_gate nowT symbol tickSize ticker24 prem c lib liq st).2.1 p hp
          (Bool.eq_false_iff.mpr hreq)] at h
        simp at h
  · unfold userRequestConfirm
    simp only [h]

/-- C3 witness: on the empty store (no pending confirmation) a concrete
close evaluation is a no-op and `userRequestConfirm` reports
NO_PENDING_PREVIEW. -/
theorem claim_C3_witness :
    confirmOnCloseForSymbol 1000000 "BTCUSDT" (1/100) (some t24G) (some premG) candlesG libG liq0 store0 =
      (none, store0) ∧
    userRequestConfirm store0 = ({ ok := false, reason := some "NO_PENDING_PREVIEW" }, store0) :=
  ⟨(claim_C3_state_machine_safety 1000000 "BTCUSDT" (1/100) (some t24G) (some premG)
      candlesG libG liq0 store0).2.1 rfl,
   (claim_C3_state_machine_safety 1000000 "BTCUSDT" (1/100) (some t24G) (some premG)
      candlesG libG liq0 store0).2.2.2 rfl⟩

end TradeBot

namespace TradeBot

set_option maxHeartbeats 2000000 in
/-- C4: every CONFIRMED signal returned by a close-confirmation evaluation
has the direction recorded in the symbol's PendingConfirmation; and when the
re-evaluated candidate resolves to a direction different from the pending
one (all earlier gates passing), the evaluation returns an INVALIDATED
signal with reason CLOSE_DIRECTION_CHANGED — never a CONFIRMED signal with
the new direction. -/
theorem claim_C4_confirmed_direction_consistency (nowT : ℤ) (symbol : String) (tickSize : ℚ)
    (ticker24 : Option Ticker24) (prem : Option Premium)
    (c : Candles) (lib : LibInd) (liq : Liq) (st : Store) :
    (∀ p sig, st.sym.pending_confirm = some p →
      (confirmOnCloseForSymbol nowT symbol tickSize ticker24 prem c lib liq st).1 = some sig →
      sig.mode = "CONFIRMED" → sig.direction = p.direction) ∧
    (∀ p t24 pr ind trend momentum cand,
      st.sym.pending_confirm = some p → p.confirm_requested = true →
      ticker24 = some t24 → prem = some pr →
      computeIndicatorsFromCandles c lib = ind →
      classifyTrend t24 ind = trend →
      computeMomentum ind = momentum →
      directionCandidate trend ind = cand →
      ¬ c.close.length < ATR_PERIOD + 2 →
      ind.rsi ≠ none → ind.macd ≠ none → ind.bb ≠ none → ind.atr ≠ none →
      cand.dir ≠ "NO_TRADE" →
      resolveDir cand.dir ≠ p.direction →
      ∃ sig, (confirmOnCloseForSymbol nowT symbol tickSize ticker24 prem c lib liq st).1 = some sig ∧
        sig.mode = "INVALIDATED" ∧ sig.direction = "NONE" ∧
        sig.reasons = ["CLOSE_DIRECTION_CHANGED"]) := by
  constructor
  · intro p sig hp h hmode
    rcases hreq : p.confirm_requested with _ | _
    · rw [(confirmOnClose_gate nowT symbol tickSize ticker24 prem c lib liq st).2.1 p hp hreq] at h
      simp at h
    · rcases ht : ticker24 with _ | t24
      · unfold confirmOnCloseForSymbol at h
        simp only [hp, hreq, ht] at h
        simp at h
      · rcases hpr : prem with _ | pr
        · unfold confirmOnCloseForSymbol at h
          simp only [hp, hreq, ht, hpr] at h
          simp at h
        · rw [(confirmOnClose_gate nowT symbol tickSize ticker24 prem c lib liq st).2.2 p t24 pr
            hp hreq ht hpr] at h
          have hshape := closeBranch_shape nowT symbol tickSize t24 pr c liq st p
            (computeIndicatorsFromCandles c lib)
            (classifyTrend t24 (computeIndicatorsFromCandles c lib))
            (computeMomentum (computeIndicatorsFromCandles c lib))
            (directionCandidate (classifyTrend t24 (computeIndicatorsFromCandles c lib))
              (computeIndicatorsFromCandles c lib))
            (confirmOnCloseCore nowT symbol tickSize t24 pr c lib liq st p)
            (by simp only [confirmOnCloseCore])
          rcases hshape with hnone | ⟨reason, hinv⟩ | ⟨sig2, hsig, hm, hd⟩
          · rw [h] at hnone
            simp at hnone
          · rw [h] at hinv
            rw [invalidate_shape symbol reason nowT st sig hinv.symm] at hmode
            simp at hmode
          · rw [h] at hsig
            have hss : sig = sig2 := by simpa using hsig
            rw [hss]
            exact hd
  · intro p t24 pr ind trend momentum cand hp hreq ht hpr hind htrend hmom hcand hlen
      hrsi hmacd hbb hatr hno hdir
    rw [(confirmOnClose_gate nowT symbol tickSize ticker24 prem c lib liq st).2.2 p t24 pr
      hp hreq ht hpr]
    have hrun : confirmOnCloseCore nowT symbol tickSize t24 pr c lib liq st p =
        invalidate symbol "CLOSE_DIRECTION_CHANGED" nowT st := by
      simp only [confirmOnCloseCore]
      rw [hind, htrend, hmom, hcand]
      unfold closeBranch
      rw [if_neg hlen]
      rw [if_neg (by simp [hrsi, hmacd, hbb, hatr])]
      rw [if_neg hno]
      rw [if_pos hdir]
    rw [hrun]
    exact ⟨_, rfl, rfl, rfl, rfl⟩

end TradeBot

namespace TradeBot

/-- C4 witness: with a pending SHORT confirmation and close data that
re-evaluates to LONG, the close evaluation returns INVALIDATED with reason
CLOSE_DIRECTION_CHANGED. -/
theorem claim_C4_witness :
    ∃ sig, (confirmOnCloseForSymbol 1000000 "BTCUSDT" (1/100) (some t24G) (some premG)
        candlesG libG liq0 storePendingShort).1 = some sig ∧
      sig.mode = "INVALIDATED" ∧ sig.direction = "NONE" ∧
      sig.reasons = ["CLOSE_DIRECTION_CHANGED"] :=
  (claim_C4_confirmed_direction_consistency 1000000 "BTCUSDT" (1/100) (some t24G) (some premG)
    candlesG libG liq0 storePendingShort).2 pendingShort t24G premG _ _ _ _
    rfl rfl rfl rfl rfl rfl rfl rfl
    (by decide) (by decide) (by decide) (by decide) (by decide)
    (by decide) (by decide)

end TradeBot

namespace TradeBot

set_option maxHeartbeats 2000000 in
/-- C10: every INVALIDATED signal returned by a close-confirmation
evaluation carries no trade parameters — direction "NONE", confidence 0,
null entry/TP/SL prices — with the invalidation reason as its single reasons
entry and encoded in its id. -/
theorem claim_C10_invalidated_signal_shape (nowT : ℤ) (symbol : String) (tickSize : ℚ)
    (ticker24 : Option Ticker24) (prem : Option Premium)
    (c : Candles) (lib : LibInd) (liq : Liq) (st : Store) :
    ∀ sig, (confirmOnCloseForSymbol nowT symbol tickSize ticker24 prem c lib liq st).1 = some sig →
      sig.mode = "INVALIDATED" →
      sig.direction = "NONE" ∧ sig.confidence = 0 ∧ sig.entryRefPrice = none ∧
      sig.tpPrice = none ∧ sig.slPrice = none ∧
      ∃ reason, sig.reasons = [reason] ∧
        sig.id = "INVALID|" ++ symbol ++ "|" ++ toString (floorTimeBucket nowT 60) ++ "|" ++ reason := by
  intro sig h hmode
  rcases hp : st.sym.pending_confirm with _ | p
  · rw [(confirmOnClose_gate nowT symbol tickSize ticker24 prem c lib liq st).1 hp] at h
    simp at h
  · rcases hreq : p.confirm_requested with _ | _
    · rw [(confirmOnClose_gate nowT symbol tickSize ticker24 prem c lib liq st).2.1 p hp hreq] at h
      simp at h
    · rcases ht : ticker24 with _ | t24
      · unfold confirmOnCloseForSymbol at h
        simp only [hp, hreq, ht] at h
        simp at h
      · rcases hpr : prem with _ | pr
        · unfold confirmOnCloseForSymbol at h
          simp only [hp, hreq, ht, hpr] at h
          simp at h
        · rw [(confirmOnClose_gate nowT symbol tickSize ticker24 prem c lib liq st).2.2 p t24 pr
            hp hreq ht hpr] at h
          have hshape := closeBranch_shape nowT symbol tickSize t24 pr c liq st p
            (computeIndicatorsFromCandles c lib)
            (classifyTrend t24 (computeIndicatorsFromCandles c lib))
            (computeMomentum (computeIndicatorsFromCandles c lib))
            (directionCandidate (classifyTrend t24 (computeIndicatorsFromCandles c lib))
              (computeIndicatorsFromCandles c lib))
            (confirmOnCloseCore nowT symbol tickSize t24 pr c lib liq st p)
            (by simp only [confirmOnCloseCore])
          rcases hshape with hnone | ⟨reason, hinv⟩ | ⟨sig2, hsig, hm, hd⟩
          · rw [h] at hnone
            simp at hnone
          · rw [h] at hinv
            rw [invalidate_shape symbol reason nowT st sig hinv.symm]
            exact ⟨rfl, rfl, rfl, rfl, rfl, reason, rfl, rfl⟩
          · rw [h] at hsig
            have hss : sig = sig2 := by simpa using hsig
            rw [hss, hm] at hmode
            simp at hmode

/-- C10 witness: with a live confirm-requested pending confirmation but a
too-short candle series, the close evaluation returns the INVALIDATED
record for CLOSE_ATR_UNAVAILABLE, which carries no trade parameters. -/
theorem claim_C10_witness :
    invalidatedAtrSig.direction = "NONE" ∧ invalidatedAtrSig.confidence = 0 ∧
    invalidatedAtrSig.entryRefPrice = none ∧ invalidatedAtrSig.tpPrice = none ∧
    invalidatedAtrSig.slPrice = none ∧
    ∃ reason, invalidatedAtrSig.reasons = [reason] ∧
      invalidatedAtrSig.id =
        "INVALID|" ++ "BTCUSDT" ++ "|" ++ toString (floorTimeBucket 1000000 60) ++ "|" ++ reason :=
  claim_C10_invalidated_signal_shape 1000000 "BTCUSDT" (1/100) (some t24G) (some premG)
    candlesShort libG liq0 storePending invalidatedAtrSig (by decide) (by decide)

end TradeBot

namespace TradeBot

set_option maxHeartbeats 4000000 in
/-- C5: during a close-confirmation evaluation whose re-evaluated candidate
is a reversal (LONG_CANDIDATE or SHORT_CANDIDATE) matching the pending
direction, the evaluation returns INVALIDATED with reason
CLOSE_REVERSAL_NOT_CONFIRMED exactly when the reversal fails its
confirmation check: RSI has not crossed back through the 70/30 threshold
(still ≥ 70 for a SHORT reversal, still ≤ 30 for a LONG reversal) and the
momentum score equals the score stored in the pending snapshot. -/
theorem claim_C5_reversal_check (nowT : ℤ) (symbol : String) (tickSize : ℚ)
    (ticker24 : Option Ticker24) (prem : Option Premium)
    (c : Candles) (lib : LibInd) (liq : Liq) (st : Store) :
    ∀ p t24 pr ind trend momentum cand sm rsiv,
      st.sym.pending_confirm = some p → p.confirm_requested = true →
      ticker24 = some t24 → prem = some pr →
      computeIndicatorsFromCandles c lib = ind →
      classifyTrend t24 ind = trend →
      computeMomentum ind = momentum →
      directionCandidate trend ind = cand →
      ¬ c.close.length < ATR_PERIOD + 2 →
      ind.rsi = some rsiv → ind.macd ≠ none → ind.bb ≠ none → ind.atr ≠ none →
      isCandidateDir cand.dir = true →
      resolveDir cand.dir = p.direction →
      p.snapshot_metrics = some sm →
      ((∃ sig, (confirmOnCloseForSymbol nowT symbol tickSize ticker24 prem c lib liq st).1 =
          some sig ∧ sig.mode = "INVALIDATED" ∧ sig.reasons = ["CLOSE_REVERSAL_NOT_CONFIRMED"]) ↔
        (((p.direction = "SHORT" ∧ rsiv ≥ 70) ∨ (p.direction = "LONG" ∧ rsiv ≤ 30)) ∧
          momentum.score = sm.momentumScore)) := by
  intro p t24 pr ind trend momentum cand sm rsiv hp hreq ht hpr hind htrend hmom hcand hlen
    hrsi hmacd hbb hatr hrev hmatch hsm
  have hcases : cand.dir = "LONG_CANDIDATE" ∨ cand.dir = "SHORT_CANDIDATE" := by
    by_contra hcon
    push_neg at hcon
    rw [isCandidateDir] at hrev
    simp [hcon.1, hcon.2] at hrev
  have hno : cand.dir ≠ "NO_TRADE" := by
    rcases hcases with hcd | hcd <;> simp [hcd]
  have hdirLS : p.direction = "LONG" ∨ p.direction = "SHORT" := by
    rcases hcases with hcd | hcd
    · left; rw [← hmatch, hcd]; decide
    · right; rw [← hmatch, hcd]; decide
  rw [(confirmOnClose_gate nowT symbol tickSize ticker24 prem c lib liq st).2.2 p t24 pr
    hp hreq ht hpr]
  have hcore : confirmOnCloseCore nowT symbol tickSize t24 pr c lib liq st p =
      closeBranch nowT symbol tickSize t24 pr c liq st p ind trend momentum cand := by
    simp only [confirmOnCloseCore]
    rw [hind, htrend, hmom, hcand]
  rw [hcore]
  unfold closeBranch
  rw [if_neg hlen, if_neg (by simp [hrsi, hmacd, hbb, hatr]), if_neg hno,
    if_neg (not_not_intro hmatch)]
  simp only [hmatch, hsm, hrsi, Option.getD_some]
  by_cases hc : ((p.direction = "SHORT" ∧ rsiv ≥ 70) ∨ (p.direction = "LONG" ∧ rsiv ≤ 30)) ∧
      momentum.score = sm.momentumScore
  · have hcnd : isCandidateDir cand.dir = true ∧
        ¬ ((p.direction = "SHORT" ∧ rsiv < 70) ∨ (p.direction = "LONG" ∧ rsiv > 30) ∨
           momentum.score < sm.momentumScore ∨ momentum.score > sm.momentumScore) := by
      refine ⟨hrev, ?_⟩
      rcases hc with ⟨hA, hB⟩
      rintro (⟨hS, hlt⟩ | ⟨hL, hgt⟩ | hlt | hgt)
      · rcases hA with ⟨_, hge⟩ | ⟨hL2, _⟩
        · exact absurd hlt (not_lt.mpr hge)
        · rw [hL2] at hS; exact absurd hS (by decide)
      · rcases hA with ⟨hS2, _⟩ | ⟨_, hle⟩
        · rw [hS2] at hL; exact absurd hL (by decide)
        · exact absurd hgt (not_lt.mpr hle)
      · exact absurd hB (ne_of_gt hlt).symm
      · exact absurd hB (ne_of_lt hgt).symm
    rw [if_pos hcnd]
    exact ⟨fun _ => hc, fun _ => ⟨_, rfl, rfl, rfl⟩⟩
  · have hcnd : ¬ (isCandidateDir cand.dir = true ∧
        ¬ ((p.direction = "SHORT" ∧ rsiv < 70) ∨ (p.direction = "LONG" ∧ rsiv > 30) ∨
           momentum.score < sm.momentumScore ∨ momentum.score > sm.momentumScore)) := by
      rintro ⟨_, hnrev⟩
      apply hc
      rw [not_or, not_or, not_or] at hnrev
      obtain ⟨hn1, hn2, hn3, hn4⟩ := hnrev
      constructor
      · rcases hdirLS with hL | hS
        · right
          refine ⟨hL, ?_⟩
          have := not_and.mp hn2 hL
          exact not_lt.mp this
        · left
          refine ⟨hS, ?_⟩
          have := not_and.mp hn1 hS
          exact not_lt.mp this
      · exact le_antisymm (not_lt.mp hn4) (not_lt.mp hn3)
    rw [if_neg hcnd]
    constructor
    · rintro ⟨sig, hs, hm2, hrs⟩
      exfalso
      split at hs
      · rw [invalidate_shape _ _ _ _ _ hs] at hrs
        simp at hrs
      split at hs
      · rw [invalidate_shape _ _ _ _ _ hs] at hrs
        simp at hrs
      split at hs
      · rw [invalidate_shape _ _ _ _ _ hs] at hrs
        simp at hrs
      split at hs
      · rw [invalidate_shape _ _ _ _ _ hs] at hrs
        simp at hrs
      split at hs
      · simp at hs
      · simp only [Option.some.injEq] at hs
        subst hs
        simp at hm2
    · intro hcc
      exact absurd hcc hc

end TradeBot

namespace TradeBot

/-- C5 witness: a pending SHORT reversal whose RSI is still 75 ≥ 70 at close
and whose momentum score equals the snapshot score is INVALIDATED with
reason CLOSE_REVERSAL_NOT_CONFIRMED. -/
theorem claim_C5_witness :
    ∃ sig, (confirmOnCloseForSymbol 1000000 "BTCUSDT" (1/100) (some t24G) (some premG)
        candlesG libR liq0 storePendingRev).1 = some sig ∧
      sig.mode = "INVALIDATED" ∧ sig.reasons = ["CLOSE_REVERSAL_NOT_CONFIRMED"] :=
  ((claim_C5_reversal_check 1000000 "BTCUSDT" (1/100) (some t24G) (some premG)
      candlesG libR liq0 storePendingRev) pendingRev t24G premG _ _ _ _ _ 75
    rfl rfl rfl rfl rfl rfl rfl rfl
    (by decide) (by decide) (by decide) (by decide) (by decide)
    (by decide) (by decide) rfl).mpr (by with_unfolding_all decide)

end TradeBot

namespace TradeBot

/-- The veto flag of `applyLiquidationAdjustments` is set whenever the
liquidation intensity reaches the HIGH threshold and the direction bias
agrees with the proposed direction's exposure risk. -/
theorem applyLiq_veto_true (direction : String) (conf : ℚ) (liq : Liq)
    (h : (direction = "LONG" ∧ liq.dirBias = 1) ∨ (direction = "SHORT" ∧ liq.dirBias = -1))
    (h2 : liq.intensityScore ≥ LIQ_THR_HIGH) :
    (applyLiquidationAdjustments direction conf liq).veto = true := by
  unfold applyLiquidationAdjustments
  rcases h with ⟨hd, hb⟩ | ⟨hd, hb⟩
  · exact decide_eq_true (Or.inl ⟨hd, hb, h2⟩)
  · exact decide_eq_true (Or.inr ⟨hd, hb, h2⟩)

set_option maxHeartbeats 4000000 in
/-- C6: the risk adjuster sets veto whenever liquidation intensity ≥ 8 and
the direction bias agrees with the proposed direction's exposure risk (LONG
vetoed by bias +1, SHORT by bias −1); a vetoed intrabar evaluation never
emits a signal (suppressed regardless of confidence), and a vetoed
close-confirmation (all earlier gates passing, non-reversal candidate)
returns an INVALIDATED signal with reason CLOSE_LIQ_VETO. -/
theorem claim_C6_liquidation_veto (nowT : ℤ) (symbol : String) (tickSize : ℚ)
    (ticker24 : Option Ticker24) (prem : Option Premium)
    (c : Candles) (lib : LibInd) (liq : Liq) (st : Store) :
    (∀ direction conf,
      ((direction = "LONG" ∧ liq.dirBias = 1) ∨ (direction = "SHORT" ∧ liq.dirBias = -1)) →
      liq.intensityScore ≥ LIQ_THR_HIGH →
      (applyLiquidationAdjustments direction conf liq).veto = true) ∧
    (∀ sig, (evaluateIntrabarForSymbol nowT symbol tickSize ticker24 prem c lib liq st).1 = some sig →
      ¬ (((sig.direction = "LONG" ∧ liq.dirBias = 1) ∨ (sig.direction = "SHORT" ∧ liq.dirBias = -1)) ∧
        liq.intensityScore ≥ LIQ_THR_HIGH)) ∧
    (∀ p t24 pr ind trend momentum cand,
      st.sym.pending_confirm = some p → p.confirm_requested = true →
      ticker24 = some t24 → prem = some pr →
      computeIndicatorsFromCandles c lib = ind →
      classifyTrend t24 ind = trend →
      computeMomentum ind = momentum →
      directionCandidate trend ind = cand →
      ¬ c.close.length < ATR_PERIOD + 2 →
      ind.rsi ≠ none → ind.macd ≠ none → ind.bb ≠ none → ind.atr ≠ none →
      cand.dir ≠ "NO_TRADE" →
      isCandidateDir cand.dir = false →
      resolveDir cand.dir = p.direction →
      ((p.direction = "LONG" ∧ liq.dirBias = 1) ∨ (p.direction = "SHORT" ∧ liq.dirBias = -1)) →
      liq.intensityScore ≥ LIQ_THR_HIGH →
      ∃ sig, (confirmOnCloseForSymbol nowT symbol tickSize ticker24 prem c lib liq st).1 = some sig ∧
        sig.mode = "INVALIDATED" ∧ sig.reasons = ["CLOSE_LIQ_VETO"]) := by
  refine ⟨fun direction conf h h2 => applyLiq_veto_true direction conf liq h h2, ?_, ?_⟩
  · intro sig h
    by_cases hcd : nowT < st.sym.cooldown_until_ts
    · unfold evaluateIntrabarForSymbol at h
      rw [if_pos hcd] at h
      simp at h
    · rcases ht : ticker24 with _ | t24
      · unfold evaluateIntrabarForSymbol at h
        rw [if_neg hcd] at h
        simp only [ht] at h
        simp at h
      · rcases hpr : prem with _ | pr
        · unfold evaluateIntrabarForSymbol at h
          rw [if_neg hcd] at h
          simp only [ht, hpr] at h
          simp at h
        · unfold evaluateIntrabarForSymbol at h
          rw [if_neg hcd] at h
          simp only [ht, hpr] at h
          have hshape := intrabarBranch_shape nowT symbol tickSize t24 pr c liq st
            (computeIndicatorsFromCandles c lib)
            (classifyTrend t24 (computeIndicatorsFromCandles c lib))
            (computeMomentum (computeIndicatorsFromCandles c lib))
            (directionCandidate (classifyTrend t24 (computeIndicatorsFromCandles c lib))
              (computeIndicatorsFromCandles c lib))
            (evaluateIntrabarCore nowT symbol tickSize t24 pr c lib liq st)
            (by simp only [evaluateIntrabarCore])
          rcases hshape with hnone | ⟨sig2, hs, hm, hdir, hconf, hveto, hwarn⟩
          · rw [h] at hnone
            simp at hnone
          · rw [h] at hs
            have hss : sig = sig2 := by simpa using hs
            rintro ⟨hbad, hint⟩
            rw [hss, hdir] at hbad
            have := applyLiq_veto_true _
              (baseConfidence (classifyTrend t24 (computeIndicatorsFromCandles c lib))
                (computeMomentum (computeIndicatorsFromCandles c lib)) t24) liq hbad hint
            rw [hveto] at this
            exact Bool.false_ne_true this
  · intro p t24 pr ind trend momentum cand hp hreq ht hpr hind htrend hmom hcand hlen
      hrsi hmacd hbb hatr hno hnorev hmatch hbad hint
    rw [(confirmOnClose_gate nowT symbol tickSize ticker24 prem c lib liq st).2.2 p t24 pr
      hp hreq ht hpr]
    have hcore : confirmOnCloseCore nowT symbol tickSize t24 pr c lib liq st p =
        closeBranch nowT symbol tickSize t24 pr c liq st p ind trend momentum cand := by
      simp only [confirmOnCloseCore]
      rw [hind, htrend, hmom, hcand]
    rw [hcore]
    unfold closeBranch
    rw [if_neg hlen, if_neg (by simp [hrsi, hmacd, hbb, hatr]), if_neg hno,
      if_neg (not_not_intro hmatch), if_neg (by simp [hnorev]),
      if_pos (by rw [hmatch]; exact applyLiq_veto_true _ _ _ hbad hint)]
    exact ⟨_, rfl, rfl, rfl⟩

/-- C6 witness: intensity 9 ≥ 8 with bias +1 vetoes a LONG (at any
confidence, e.g. 80), and a pending LONG confirmation under that snapshot is
INVALIDATED with reason CLOSE_LIQ_VETO. -/
theorem claim_C6_witness :
    (applyLiquidationAdjustments "LONG" 80 liqVeto).veto = true ∧
    (∃ sig, (confirmOnCloseForSymbol 1000000 "BTCUSDT" (1/100) (some t24G) (some premG)
        candlesG libG liqVeto storePending).1 = some sig ∧
      sig.mode = "INVALIDATED" ∧ sig.reasons = ["CLOSE_LIQ_VETO"]) :=
  ⟨(claim_C6_liquidation_veto 1000000 "BTCUSDT" (1/100) (some t24G) (some premG)
      candlesG libG liqVeto storePending).1 "LONG" 80 (Or.inl ⟨rfl, rfl⟩) (by decide),
   (claim_C6_liquidation_veto 1000000 "BTCUSDT" (1/100) (some t24G) (some premG)
      candlesG libG liqVeto storePending).2.2 pendingG t24G premG _ _ _ _
      rfl rfl rfl rfl rfl rfl rfl rfl
      (by decide) (by decide) (by decide) (by decide) (by decide) (by decide) (by decide)
      (by decide) (Or.inl ⟨rfl, rfl⟩) (by decide)⟩

end TradeBot

namespace TradeBot

/-- The liquidation adjuster never emits the funding warning: its warnings
are drawn from the LIQ_* set only. -/
theorem funding_warning_not_liq (direction : String) (conf : ℚ) (liq : Liq) :
    "FUNDING_SOON_HIGH_RATE" ∉ (applyLiquidationAdjustments direction conf liq).warnings := by
  intro hmem
  simp only [applyLiquidationAdjustments] at hmem
  repeat' split at hmem
  all_goals simp_all

/-- `fundingSoonHighRate` holds exactly when both funding fields are known,
the floored minute distance to the next funding time is at most
FUNDING_WARN_MINUTES, and the absolute funding rate reaches the threshold. -/
theorem fundingSoonHighRate_iff (pr : Premium) (nowT : ℤ) :
    fundingSoonHighRate pr nowT = true ↔
    (∃ ft fr, pr.nextFundingTime = some ft ∧ pr.lastFundingRate = some fr ∧
      minutesTo ft nowT ≤ FUNDING_WARN_MINUTES ∧ |fr| ≥ FUNDING_RATE_ABS_WARN) := by
  unfold fundingSoonHighRate
  rcases hft : pr.nextFundingTime with _ | ft <;> rcases hfr : pr.lastFundingRate with _ | fr <;>
    simp [hft, hfr]

/-- C9 counterexample: at t = 1000000 with the next funding time 1830000 ms
away — strictly more than 30 minutes — and |rate| = 0.0003 ≥ 0.0002, the
emitted PREVIEW signal nevertheless carries the "funding soon, high rate"
warning, because the code compares the floored minute count
(`minutesTo = 30 ≤ 30`) rather than the actual distance.  This refutes
"attached exactly when the next funding time is at most 30 minutes away". -/
theorem claim_C9_counterexample :
    ((evaluateIntrabarForSymbol 1000000 "BTCUSDT" (1/100) (some t24G) (some premF)
        candlesG libG liq0 store0).1.map Signal.warnings) = some ["FUNDING_SOON_HIGH_RATE"] ∧
    (2830000 : ℤ) - 1000000 > FUNDING_WARN_MINUTES * 60000 ∧
    premF.nextFundingTime = some 2830000 ∧ premF.lastFundingRate = some (3/10000) ∧
    |(3/10000 : ℚ)| ≥ FUNDING_RATE_ABS_WARN := by
  refine ⟨?_, ?_, ?_, ?_, ?_⟩
  · with_unfolding_all rfl
  · decide
  · rfl
  · rfl
  · with_unfolding_all decide

set_option maxHeartbeats 4000000 in
/-- C9 (amended): the "funding soon, high rate" warning is attached to an
emitted intrabar signal exactly when the next funding time is known with a
floored minute distance from now of at most 30 (i.e. strictly less than 31
minutes away, past times included) and the absolute funding rate is
≥ 0.0002; and the funding condition never changes the signal's confidence,
which always equals the liquidation-adjusted base confidence. -/
theorem claim_C9_funding_warning (nowT : ℤ) (symbol : String) (tickSize : ℚ)
    (ticker24 : Option Ticker24) (prem : Option Premium)
    (c : Candles) (lib : LibInd) (liq : Liq) (st : Store) :
    ∀ sig t24 pr, ticker24 = some t24 → prem = some pr →
      (evaluateIntrabarForSymbol nowT symbol tickSize ticker24 prem c lib liq st).1 = some sig →
      (("FUNDING_SOON_HIGH_RATE" ∈ sig.warnings) ↔
        (∃ ft fr, pr.nextFundingTime = some ft ∧ pr.lastFundingRate = some fr ∧
          minutesTo ft nowT ≤ FUNDING_WARN_MINUTES ∧ |fr| ≥ FUNDING_RATE_ABS_WARN)) ∧
      sig.confidence = (applyLiquidationAdjustments
        (resolveDir (directionCandidate (classifyTrend t24 (computeIndicatorsFromCandles c lib))
          (computeIndicatorsFromCandles c lib)).dir)
        (baseConfidence (classifyTrend t24 (computeIndicatorsFromCandles c lib))
          (computeMomentum (computeIndicatorsFromCandles c lib)) t24) liq).confidence := by
  intro sig t24 pr ht hpr h
  by_cases hcd : nowT < st.sym.cooldown_until_ts
  · unfold evaluateIntrabarForSymbol at h
    rw [if_pos hcd] at h
    simp at h
  · unfold evaluateIntrabarForSymbol at h
    rw [if_neg hcd] at h
    simp only [ht, hpr] at h
    have hshape := intrabarBranch_shape nowT symbol tickSize t24 pr c liq st
      (computeIndicatorsFromCandles c lib)
      (classifyTrend t24 (computeIndicatorsFromCandles c lib))
      (computeMomentum (computeIndicatorsFromCandles c lib))
      (directionCandidate (classifyTrend t24 (computeIndicatorsFromCandles c lib))
        (computeIndicatorsFromCandles c lib))
      (evaluateIntrabarCore nowT symbol tickSize t24 pr c lib liq st)
      (by simp only [evaluateIntrabarCore])
    rcases hshape with hnone | ⟨sig2, hs, hm, hdir, hconf, hveto, hwarn⟩
    · rw [h] at hnone
      simp at hnone
    · rw [h] at hs
      have hss : sig = sig2 := by simpa using hs
      subst hss
      refine ⟨?_, hconf⟩
      rw [hwarn]
      rcases hf : fundingSoonHighRate pr nowT with _ | _
      · rw [hf] at hwarn
        apply iff_of_false
        · intro hmem
          rcases List.mem_append.mp hmem with hmem2 | hmem2
          · exact funding_warning_not_liq _ _ _ hmem2
          · rw [if_neg (by decide)] at hmem2
            simp at hmem2
        · intro hex
          rw [(fundingSoonHighRate_iff pr nowT).mpr hex] at hf
          simp at hf
      · apply iff_of_true
        · simp only [hf]
          simp
        · exact (fundingSoonHighRate_iff pr nowT).mp hf

end TradeBot

namespace TradeBot

/-- C9 witness: for the concrete funding scenario, the emitted signal's
warning list contains FUNDING_SOON_HIGH_RATE exactly under the floored
minute condition, and its confidence equals the liquidation-adjusted base
confidence. -/
theorem claim_C9_witness :
    (("FUNDING_SOON_HIGH_RATE" ∈ previewSigF.warnings) ↔
      (∃ ft fr, premF.nextFundingTime = some ft ∧ premF.lastFundingRate = some fr ∧
        minutesTo ft 1000000 ≤ FUNDING_WARN_MINUTES ∧ |fr| ≥ FUNDING_RATE_ABS_WARN)) ∧
    previewSigF.confidence = (applyLiquidationAdjustments
      (resolveDir (directionCandidate (classifyTrend t24G (computeIndicatorsFromCandles candlesG libG))
        (computeIndicatorsFromCandles candlesG libG)).dir)
      (baseConfidence (classifyTrend t24G (computeIndicatorsFromCandles candlesG libG))
        (computeMomentum (computeIndicatorsFromCandles candlesG libG)) t24G) liq0).confidence :=
  claim_C9_funding_warning 1000000 "BTCUSDT" (1/100) (some t24G) (some premF)
    candlesG libG liq0 store0 previewSigF t24G premF rfl rfl (by with_unfolding_all rfl)

end TradeBot

namespace TradeBot

/-- C1: the trade-bot.js intrabar gate returns none while
`now < cooldown_until_ts`, and CONFIRMED/INVALIDATED outcomes arm 30- and
15-minute cooldowns respectively — but the part_002 variant, whose cooldown
check is commented out ("Skip cooldown check temporarily for debugging"),
emits a PREVIEW signal at the very same cooled-down state and time. -/
theorem claim_C1_cooldown_gate :
    ((evaluateIntrabarForSymbol 1880000 "BTCUSDT" (1/100) (some t24G) (some premG)
        candlesG libG liq0 storeCooldown).1 = none ∧
      (1880000 : ℤ) < storeCooldown.sym.cooldown_until_ts) ∧
    ((Part2.evaluateIntrabarForSymbol 1880000 "BTCUSDT" (1/100) (some t24G)
        { markPrice := 0, lastFundingRate := 0, nextFundingTime := 0 }
        candlesG libG liq0 storeCooldown).1.map (fun s => (s.mode, s.direction)) =
      some ("PREVIEW", "LONG")) ∧
    ((invalidate "BTCUSDT" "CLOSE_NO_TRADE" 1000000 store0).2.sym.cooldown_until_ts =
      1000000 + COOLDOWN_INVALIDATED_MIN * 60000) ∧
    ((confirmOnCloseForSymbol 1000000 "BTCUSDT" (1/100) (some t24G) (some premG)
        candlesG libG liq0 storePending).2.sym.cooldown_until_ts =
      1000000 + COOLDOWN_CONFIRMED_MIN * 60000) := by
  refine ⟨⟨?_, ?_⟩, ?_, ?_, ?_⟩
  · with_unfolding_all rfl
  · decide
  · with_unfolding_all rfl
  · decide
  · with_unfolding_all rfl

/-- C2: in trade-bot.js, two intrabar evaluations falling in the same
120-second dedupe bucket with identical inputs yield exactly one
non-suppressed PREVIEW — the first claims the preview id, the second finds
it claimed and returns none — but the part_002 variant, whose dedupe claim
is commented out ("Skip dedupe for debugging - always show signals"), emits
a non-suppressed PREVIEW signal on both evaluations. -/
theorem claim_C2_dedupe_idempotence :
    (floorTimeBucket 1000000 DEDUPE_SCOPE_SECONDS = floorTimeBucket 1001000 DEDUPE_SCOPE_SECONDS) ∧
    ((evaluateIntrabarForSymbol 1000000 "BTCUSDT" (1/100) (some t24G) (some premG)
        candlesG libG liq0 store0).1.map (fun s => (s.mode, s.direction)) =
      some ("PREVIEW", "LONG")) ∧
    ((evaluateIntrabarForSymbol 1001000 "BTCUSDT" (1/100) (some t24G) (some premG)
        candlesG libG liq0
        (evaluateIntrabarForSymbol 1000000 "BTCUSDT" (1/100) (some t24G) (some premG)
          candlesG libG liq0 store0).2).1 = none) ∧
    ((Part2.evaluateIntrabarForSymbol 1000000 "BTCUSDT" (1/100) (some t24G)
        { markPrice := 0, lastFundingRate := 0, nextFundingTime := 0 }
        candlesG libG liq0 store0).1.map (fun s => (s.mode, s.direction)) =
      some ("PREVIEW", "LONG")) ∧
    ((Part2.evaluateIntrabarForSymbol 1001000 "BTCUSDT" (1/100) (some t24G)
        { markPrice := 0, lastFundingRate := 0, nextFundingTime := 0 }
        candlesG libG liq0
        (Part2.evaluateIntrabarForSymbol 1000000 "BTCUSDT" (1/100) (some t24G)
          { markPrice := 0, lastFundingRate := 0, nextFundingTime := 0 }
          candlesG libG liq0 store0).2).1.map (fun s => (s.mode, s.direction)) =
      some ("PREVIEW", "LONG")) := by
  refine ⟨?_, ?_, ?_, ?_, ?_⟩
  · decide
  · with_unfolding_all rfl
  · with_unfolding_all rfl
  · with_unfolding_all rfl
  · with_unfolding_all rfl

end TradeBot
